import Mathlib

/-!
Verification development for the sentiment-analysis system.

The definitions below are a shallow embedding of the Python sources:
  src/core/sentiment_analyzer.py   (ensemble sentiment scoring)
  src/core/emotion_detector.py     (emotion detection and its ensemble)
  src/streaming/stream_manager.py  (stream sessions, buffers, callbacks)

Scores are modelled over `ℚ`; Python floats enter only through the opaque
backend scoring functions, which are parameters here.  Python exceptions are
modelled with `Except String`; a `try/except` that logs and re-raises is the
identity on the `Except` value, while a `try/except` that logs and swallows
maps errors to a normal return.
-/

namespace SentimentSystem

/-! ## Ensemble sentiment scoring (`sentiment_analyzer.py`) -/

/-- The three sentiment model backends that can take part in the ensemble
(`"bert"`, `"vader"`, `"textblob"` in `self.models`). -/
inductive Backend
  | bert
  | vader
  | textblob
deriving DecidableEq, Repr

/-- The shape of each backend's raw result, as read by
`_analyze_with_ensemble`:
`bert` exposes `scores.positive`/`scores.negative`, `vader` also exposes
`scores.neutral`, and `textblob` exposes `scores.polarity`/`scores.subjectivity`. -/
def ModelResult : Backend → Type
  | .bert => ℚ × ℚ
  | .vader => ℚ × ℚ × ℚ
  | .textblob => ℚ × ℚ

/-- The order in which `_analyze_with_ensemble` queries the loaded models
(bert, then vader, then textblob). -/
def backendOrder : List Backend := [.bert, .vader, .textblob]

/-- Default ensemble weights used when no `"custom"` model is loaded
(`{"bert": 0.6, "vader": 0.3, "textblob": 0.1}`). -/
def defaultWeights : Backend → ℚ
  | .bert => 6/10
  | .vader => 3/10
  | .textblob => 1/10

/-- Query every loaded model in order, propagating the first exception
(each `_analyze_with_*` helper re-raises on failure, and so does the
ensemble's own `try`/`except`). -/
def gatherResults : List Backend → ((b : Backend) → Except String (ModelResult b)) →
    Except String (List (Sigma ModelResult))
  | [], _ => .ok []
  | b :: bs, score =>
    match score b with
    | .error e => .error e
    | .ok r =>
      match gatherResults bs score with
      | .error e => .error e
      | .ok rest => .ok (⟨b, r⟩ :: rest)

/-- `available_models = set(results.keys())`, kept in query order. -/
def availableModels (results : List (Sigma ModelResult)) : List Backend :=
  results.map Sigma.fst

/-- `total_weight = sum(weights[model] for model in available_models)`.
(The Python guard `if model in weights` is always true: the weights dict —
default or custom — has exactly the three backend keys.) -/
def totalWeight (weights : Backend → ℚ) (avail : List Backend) : ℚ :=
  (avail.map weights).sum

/-- `normalized_weights[model] = weights[model] / total_weight`. -/
def normalizedWeight (weights : Backend → ℚ) (avail : List Backend)
    (b : Backend) : ℚ :=
  weights b / totalWeight weights avail

/-- One model's contribution `(positive, negative, neutral)` to the weighted
sums, with `w` the weight this backend participates with.  For `textblob`,
the polarity is converted: positive polarity feeds the positive bucket,
negative polarity feeds the negative bucket via its absolute value, and zero
polarity adds exactly `w` to the neutral bucket. -/
def modelContribution : (b : Backend) → ModelResult b → ℚ → ℚ × ℚ × ℚ
  | .bert, (p, n), w => (p * w, n * w, 0)
  | .vader, (p, n, u), w => (p * w, n * w, u * w)
  | .textblob, (pol, _subj), w =>
    if 0 < pol then (pol * w, 0, 0)
    else if pol < 0 then (0, |pol| * w, 0)
    else (0, 0, w)

/-- One iteration of the accumulation loop: add the model's weighted
contribution to the running `(positive, negative, neutral)` sums. -/
def contribStep (weights : Backend → ℚ) (avail : List Backend)
    (acc : ℚ × ℚ × ℚ) (r : Sigma ModelResult) : ℚ × ℚ × ℚ :=
  let c := modelContribution r.fst r.snd (normalizedWeight weights avail r.fst)
  (acc.1 + c.1, acc.2.1 + c.2.1, acc.2.2 + c.2.2)

/-- The accumulation loop computing `positive_score`, `negative_score`,
`neutral_score` over `results.items()` (insertion order). -/
def combineScores (weights : Backend → ℚ) (results : List (Sigma ModelResult)) :
    ℚ × ℚ × ℚ :=
  results.foldl (contribStep weights (availableModels results)) (0, 0, 0)

/-- Sentiment labels. -/
inductive Sentiment
  | positive
  | negative
  | neutral
deriving DecidableEq, Repr

/-- The final label/confidence rule of `_analyze_with_ensemble`:
positive wins only when strictly above both other buckets, negative likewise,
otherwise neutral; confidence is the winning bucket's score. -/
def determineSentiment (pos neg neu : ℚ) : Sentiment × ℚ :=
  if pos > neg ∧ pos > neu then (.positive, pos)
  else if neg > pos ∧ neg > neu then (.negative, neg)
  else (.neutral, neu)

/-- The combined result returned by `_analyze_with_ensemble`
(`sentiment`, `confidence`, and the three combined `scores`). -/
structure EnsembleResult where
  sentiment : Sentiment
  confidence : ℚ
  positive : ℚ
  negative : ℚ
  neutral : ℚ
deriving DecidableEq, Repr

/-- `_analyze_with_ensemble`: query the loaded models (first backend
exception propagates), renormalize the weights over the available models
(a non-empty available set with zero total weight raises `ZeroDivisionError`
in Python, re-raised by the surrounding `except`), accumulate the weighted
scores and classify. -/
def analyzeWithEnsemble (loaded : List Backend) (weights : Backend → ℚ)
    (score : (b : Backend) → Except String (ModelResult b)) :
    Except String EnsembleResult :=
  match gatherResults (backendOrder.filter (fun b => b ∈ loaded)) score with
  | .error e => .error e
  | .ok results =>
    let avail := availableModels results
    if avail ≠ [] ∧ totalWeight weights avail = 0 then
      .error "ZeroDivisionError"
    else
      let s := combineScores weights results
      let lc := determineSentiment s.1 s.2.1 s.2.2
      .ok { sentiment := lc.1, confidence := lc.2,
            positive := s.1, negative := s.2.1, neutral := s.2.2 }

/-! ## Emotion detection (`emotion_detector.py`) -/

/-- The two emotion model backends that can take part in the emotion
ensemble (`"transformer"`, `"rule-based"` in `self.models`). -/
inductive EmotionBackend
  | transformer
  | ruleBased
deriving DecidableEq, Repr

/-- The fixed emotion vocabulary `self.emotions`. -/
inductive Emotion
  | joy
  | anger
  | fear
  | sadness
  | surprise
  | disgust
deriving DecidableEq, Repr

/-- The order in which `_detect_with_ensemble` queries the loaded models
(transformer, then rule-based). -/
def emotionBackendOrder : List EmotionBackend := [.transformer, .ruleBased]

/-- Default emotion ensemble weights used when no `"custom"` model is loaded
(`{"transformer": 0.7, "rule-based": 0.3}`). -/
def defaultEmotionWeights : EmotionBackend → ℚ
  | .transformer => 7/10
  | .ruleBased => 3/10

/-- `total_weight` over the available emotion models. -/
def emotionTotalWeight (weights : EmotionBackend → ℚ)
    (avail : List EmotionBackend) : ℚ :=
  (avail.map weights).sum

/-- `normalized_weights[model]` for the emotion ensemble. -/
def emotionNormalizedWeight (weights : EmotionBackend → ℚ)
    (avail : List EmotionBackend) (b : EmotionBackend) : ℚ :=
  weights b / emotionTotalWeight weights avail

/-- `_detect_with_ensemble`: the individual emotion detectors never raise
(each catches its own errors and falls back), so their scores are total
functions here.  Renormalize the weights over the available models and
accumulate `emotion_scores[e] += result[e] * normalized_weights[model]`
starting from the all-zero vector.  A non-empty available set with zero
total weight raises `ZeroDivisionError` in Python, which the ensemble's own
`except` turns into the uniform default `1/6` per emotion. -/
def detectWithEnsemble (loaded : List EmotionBackend)
    (weights : EmotionBackend → ℚ) (score : EmotionBackend → Emotion → ℚ)
    (e : Emotion) : ℚ :=
  let avail := emotionBackendOrder.filter (fun b => b ∈ loaded)
  if avail ≠ [] ∧ emotionTotalWeight weights avail = 0 then 1/6
  else (avail.map (fun b => score b e * emotionNormalizedWeight weights avail b)).sum

/-- The dispatch inside `detect`'s `try` block: pick the detector according
to `model_type` and whether the transformer model actually loaded, with a
rule-based fallback for any other `model_type` string.  Each branch is an
`Except`-valued computation so that an error escaping the dispatch can be
expressed. -/
def detectDispatch (modelType : String) (transformerLoaded : Bool)
    (transformerD ruleBasedD ensembleD : Except String (Emotion → ℚ)) :
    Except String (Emotion → ℚ) :=
  if modelType = "transformer" ∧ transformerLoaded = true then transformerD
  else if modelType = "rule-based" ∨ (modelType = "transformer" ∧ transformerLoaded = false) then
    ruleBasedD
  else if modelType = "custom" then ensembleD
  else if modelType = "all" then ensembleD
  else ruleBasedD

/-- `detect`: run the dispatch; on a normal result return the emotion
scores, and on any escaping error return `0.0` for every emotion instead of
re-raising (`except` branch of `detect`). -/
def detect (modelType : String) (transformerLoaded : Bool)
    (transformerD ruleBasedD ensembleD : Except String (Emotion → ℚ))
    (e : Emotion) : ℚ :=
  match detectDispatch modelType transformerLoaded transformerD ruleBasedD ensembleD with
  | .ok scores => scores e
  | .error _ => 0

/-! ## Streaming ingestion manager (`stream_manager.py`)

Python dicts keyed by stream id are modelled as association lists with
insertion-order semantics; callbacks are identified by opaque tags. -/

/-- `d[k]` lookup. -/
def dictGet {α : Type} : List (String × α) → String → Option α
  | [], _ => none
  | (k', v) :: rest, k => if k' = k then some v else dictGet rest k

/-- `d[k] = v` assignment (overwrite if present, append otherwise). -/
def dictSet {α : Type} : List (String × α) → String → α → List (String × α)
  | [], k, v => [(k, v)]
  | (k', v') :: rest, k, v =>
    if k' = k then (k, v) :: rest else (k', v') :: dictSet rest k v

/-- In-place update of an existing entry; no-op when the key is absent
(every Python call site updates a key it has already checked or created). -/
def dictUpdate {α : Type} : List (String × α) → String → (α → α) → List (String × α)
  | [], _, _ => []
  | (k', v) :: rest, k, f =>
    if k' = k then (k', f v) :: rest else (k', v) :: dictUpdate rest k f

/-- One entry of `self.active_streams` (the fields the claims touch;
`start_time` is omitted as wall-clock data). -/
structure StreamSession where
  source : String
  query : String
  duration : Int
  status : String
  dataCount : Nat
  error : Option String
deriving DecidableEq, Repr

/-- One entry of a `self.stream_results` buffer.  `sentiment` is filled by
the scoring pass; `processedText` models the `processed_text` key added at
the same time. -/
structure StreamItem where
  text : String
  processed : Bool
  processedText : Option String
  sentiment : Option EnsembleResult
deriving DecidableEq, Repr

/-- The mutable state of a `StreamManager`. -/
structure ManagerState where
  activeStreams : List (String × StreamSession)
  streamResults : List (String × List StreamItem)
  streamCallbacks : List (String × List Nat)
deriving DecidableEq, Repr

/-- `StreamManager.__init__`. -/
def initialManagerState : ManagerState :=
  { activeStreams := [], streamResults := [], streamCallbacks := [] }

/-- The four source kinds `start_stream` dispatches on. -/
def knownSources : List String := ["twitter", "reddit", "kafka", "custom"]

/-- The session record `start_stream` inserts before dispatching on the
source. -/
def freshSession (source query : String) (duration : Int) : StreamSession :=
  { source := source, query := query, duration := duration,
    status := "initializing", dataCount := 0, error := none }

/-- `session["status"] = status`. -/
def withStatus (status : String) (s : StreamSession) : StreamSession :=
  { s with status := status }

/-- `session["status"] = "error"; session["error"] = msg`. -/
def withError (msg : String) (s : StreamSession) : StreamSession :=
  { s with status := "error", error := some msg }

/-- Each `_start_<source>_stream` helper catches its own exceptions: on
success it sets the status to `"running"`, on an adapter failure it sets
status `"error"` and records the message; it never raises into
`start_stream`.  `adapterFailure` stands for the outcome of the
source-specific launch code. -/
def startAdapter (st : ManagerState) (streamId : String)
    (adapterFailure : Option String) : ManagerState :=
  match adapterFailure with
  | none =>
    { st with activeStreams := dictUpdate st.activeStreams streamId (withStatus "running") }
  | some msg =>
    { st with activeStreams := dictUpdate st.activeStreams streamId (withError msg) }

/-- `start_stream`: insert the session record (status `"initializing"`) and
an empty results buffer, then dispatch on `source`; an unknown source raises
`ValueError` (logged and re-raised), leaving the already-inserted records in
place.  Returns the mutated state together with the stream id or the
exception. -/
def start_stream (st : ManagerState) (streamId source query : String)
    (duration : Int) (adapterFailure : Option String) :
    ManagerState × Except String String :=
  let st1 : ManagerState :=
    { st with
      activeStreams := dictSet st.activeStreams streamId (freshSession source query duration),
      streamResults := dictSet st.streamResults streamId [] }
  if source ∈ knownSources then
    (startAdapter st1 streamId adapterFailure, .ok streamId)
  else
    (st1, .error (String.append "Unknown source: " source))

/-- The tail of `_run_custom_stream` (and of the other `_run_*` loops): when
the loop ends normally the task writes status `"completed"`, and when it
raises the task writes status `"error"` plus the message — in both cases
unconditionally, whatever the current status is. -/
def runStreamFinish (st : ManagerState) (streamId : String)
    (failure : Option String) : ManagerState :=
  match failure with
  | none =>
    { st with activeStreams := dictUpdate st.activeStreams streamId (withStatus "completed") }
  | some msg =>
    { st with activeStreams := dictUpdate st.activeStreams streamId (withError msg) }

/-- `stop_stream`: raise `ValueError` for an unknown id, otherwise
unconditionally set the status to `"stopped"`. -/
def stop_stream (st : ManagerState) (streamId : String) :
    ManagerState × Except String Unit :=
  match dictGet st.activeStreams streamId with
  | none => (st, .error (String.append "Stream not found: " streamId))
  | some _ =>
    ({ st with activeStreams := dictUpdate st.activeStreams streamId (withStatus "stopped") },
     .ok ())

/-- The body of `process_stream`'s loop for one buffered item: skip items
already processed, otherwise normalize the text, score it, and write back
`processed=True` plus the results.  The text processor and the scoring
engine are modelled as total functions. -/
def processItem (tp : String → String) (an : String → EnsembleResult)
    (item : StreamItem) : StreamItem :=
  if item.processed then item
  else
    { item with
      processed := true
      processedText := some (tp item.text)
      sentiment := some (an (tp item.text)) }

/-- `process_stream`: its `try/except` swallows every exception, so the
coroutine always returns normally.  An unknown id raises `ValueError`
internally, which the `except` absorbs, leaving the state unchanged;
otherwise every unprocessed buffered item is scored in place. -/
def process_stream (st : ManagerState) (streamId : String)
    (tp : String → String) (an : String → EnsembleResult) : ManagerState :=
  match dictGet st.activeStreams streamId with
  | none => st
  | some _ =>
    { st with streamResults :=
        dictUpdate st.streamResults streamId (List.map (processItem tp an)) }

/-- `register_callback`: no existence check at all — create the callback
list for the id if absent and append the callback. -/
def register_callback (st : ManagerState) (streamId : String) (cb : Nat) :
    ManagerState :=
  match dictGet st.streamCallbacks streamId with
  | none =>
    { st with streamCallbacks := dictSet st.streamCallbacks streamId [cb] }
  | some l =>
    { st with streamCallbacks := dictSet st.streamCallbacks streamId (l ++ [cb]) }

/-- `get_stream_status`: raise `ValueError` for an unknown id, otherwise
return the session record.  A pure read. -/
def get_stream_status (st : ManagerState) (streamId : String) :
    Except String StreamSession :=
  match dictGet st.activeStreams streamId with
  | none => .error (String.append "Stream not found: " streamId)
  | some s => .ok s

/-- `get_stream_results`: raise `ValueError` for an unknown id, otherwise
optionally filter to processed items and return the Python slice
`results[-limit:]` (for `limit = 0` that slice is `results[0:]`, the whole
list). -/
def get_stream_results (st : ManagerState) (streamId : String)
    (limit : Nat) (processedOnly : Bool) : Except String (List StreamItem) :=
  match dictGet st.streamResults streamId with
  | none => .error (String.append "Stream not found: " streamId)
  | some results =>
    let results := if processedOnly then results.filter (fun i => i.processed) else results
    .ok (if limit = 0 then results else results.drop (results.length - limit))

/-! ## Concrete fixtures used by witnesses and counterexamples -/

/-- A probe backend suite with fixed scores, used to witness the
renormalization invariant on a concrete call. -/
def probeScore : (b : Backend) → Except String (ModelResult b)
  | .bert => .ok ((4 : ℚ)/5, 1/5)
  | .vader => .ok ((1 : ℚ)/2, 1/4, 1/4)
  | .textblob => .ok ((1 : ℚ)/3, 1/2)

/-- The results `probeScore` yields when bert and vader are loaded. -/
def probeResults : List (Sigma ModelResult) :=
  [⟨Backend.bert, ((4 : ℚ)/5, 1/5)⟩, ⟨Backend.vader, ((1 : ℚ)/2, 1/4, 1/4)⟩]

/-- A manager state holding a single session already in the terminal
status `"completed"`. -/
def terminalSessionState : ManagerState :=
  { activeStreams := [("sid-2", withStatus "completed" (freshSession "custom" "q" 0))],
    streamResults := [("sid-2", [])],
    streamCallbacks := [] }

/-- A fixed scoring result standing in for the sentiment engine in
concrete stream-processing inputs. -/
def neutralResult : EnsembleResult :=
  { sentiment := .neutral, confidence := 0, positive := 0, negative := 0, neutral := 0 }

/-! ## Helper lemmas -/

theorem sum_map_div (l : List ℚ) (c : ℚ) :
    (l.map (fun x => x / c)).sum = l.sum / c := by
  induction l with
  | nil => simp
  | cons x xs ih => simp [ih, add_div]

theorem map_eq_of_eq_on {α β : Type} {f g : α → β} :
    ∀ l : List α, (∀ a ∈ l, f a = g a) → l.map f = l.map g := by
  intro l
  induction l with
  | nil => intro _; rfl
  | cons x xs ih =>
    intro h
    simp only [List.map_cons]
    rw [h x (List.mem_cons_self x xs), ih (fun a ha => h a (List.mem_cons_of_mem x ha))]

theorem dictGet_dictSet_self {α : Type} (d : List (String × α)) (k : String) (v : α) :
    dictGet (dictSet d k v) k = some v := by
  induction d with
  | nil => simp [dictGet, dictSet]
  | cons p rest ih =>
    by_cases h : p.1 = k
    · simp [dictGet, dictSet, h]
    · simp [dictGet, dictSet, h, ih]

theorem dictGet_dictUpdate_self {α : Type} (d : List (String × α)) (k : String)
    (f : α → α) : dictGet (dictUpdate d k f) k = (dictGet d k).map f := by
  induction d with
  | nil => simp [dictGet, dictUpdate]
  | cons p rest ih =>
    by_cases h : p.1 = k
    · simp [dictGet, dictUpdate, h]
    · simp [dictGet, dictUpdate, h, ih]

theorem dictUpdate_dictUpdate {α : Type} (d : List (String × α)) (k : String)
    (f g : α → α) : dictUpdate (dictUpdate d k f) k g = dictUpdate d k (fun x => g (f x)) := by
  induction d with
  | nil => simp [dictUpdate]
  | cons p rest ih =>
    by_cases h : p.1 = k
    · simp [dictUpdate, h]
    · simp [dictUpdate, h, ih]

theorem mem_backendOrder (b : Backend) : b ∈ backendOrder := by
  cases b <;> simp [backendOrder]

theorem gatherResults_error (score : (b : Backend) → Except String (ModelResult b)) :
    ∀ (l : List Backend) (b : Backend), b ∈ l → (∃ e, score b = .error e) →
      ∃ msg, gatherResults l score = .error msg := by
  intro l
  induction l with
  | nil => intro b hb; exact absurd hb (List.not_mem_nil b)
  | cons a rest ih =>
    intro b hb ⟨e, he⟩
    rcases List.mem_cons.mp hb with hba | hbr
    · subst hba
      refine ⟨e, ?_⟩
      simp [gatherResults, he]
    · rcases h1 : score a with e1 | r1
      · exact ⟨e1, by simp [gatherResults, h1]⟩
      · rcases ih b hbr ⟨e, he⟩ with ⟨msg, hmsg⟩
        exact ⟨msg, by simp [gatherResults, h1, hmsg]⟩

theorem totalWeight_eq_of_eq_on (weights weights' : Backend → ℚ)
    (avail : List Backend) (h : ∀ b ∈ avail, weights' b = weights b) :
    totalWeight weights' avail = totalWeight weights avail := by
  unfold totalWeight
  rw [map_eq_of_eq_on avail h]

theorem contribStep_eq_of_eq_on (weights weights' : Backend → ℚ)
    (avail : List Backend) (h : ∀ b ∈ avail, weights' b = weights b)
    (acc : ℚ × ℚ × ℚ) (r : Sigma ModelResult) (hr : r.fst ∈ avail) :
    contribStep weights' avail acc r = contribStep weights avail acc r := by
  unfold contribStep normalizedWeight
  rw [totalWeight_eq_of_eq_on weights weights' avail h, h r.fst hr]

theorem combineScores_eq_of_eq_on (weights weights' : Backend → ℚ)
    (results : List (Sigma ModelResult))
    (h : ∀ b ∈ availableModels results, weights' b = weights b) :
    combineScores weights' results = combineScores weights results := by
  unfold combineScores
  exact List.foldl_ext _ _ (0, 0, 0)
    (fun acc r hr =>
      contribStep_eq_of_eq_on weights weights' (availableModels results) h acc r
        (List.mem_map_of_mem Sigma.fst hr))

theorem processItem_idem (tp : String → String) (an : String → EnsembleResult)
    (item : StreamItem) :
    processItem tp an (processItem tp an item) = processItem tp an item := by
  by_cases h : item.processed
  · simp [processItem, h]
  · simp [processItem, h]

theorem map_processItem_idem (tp : String → String) (an : String → EnsembleResult)
    (l : List StreamItem) :
    (l.map (processItem tp an)).map (processItem tp an) = l.map (processItem tp an) := by
  rw [List.map_map]
  exact map_eq_of_eq_on l (fun a _ => processItem_idem tp an a)

/-! ## Claims -/

/-- C1: for every weight configuration, with no sentiment backend loaded the
sentiment ensemble returns label `Neutral`, confidence `0` and all-zero
combined scores as a normal (non-error) result, and the emotion ensemble
returns the all-zero emotion vector. -/
theorem ensemble_no_backends_degraded_neutral
    (weights : Backend → ℚ) (score : (b : Backend) → Except String (ModelResult b))
    (eweights : EmotionBackend → ℚ) (escore : EmotionBackend → Emotion → ℚ) :
    analyzeWithEnsemble [] weights score =
      .ok { sentiment := .neutral, confidence := 0, positive := 0, negative := 0, neutral := 0 }
    ∧ ∀ e : Emotion, detectWithEnsemble [] eweights escore e = 0 :=
  ⟨rfl, fun _ => rfl⟩

/-- C2 counterexample: with only the bert backend loaded and its scoring
call raising, the sentiment ensemble combine itself returns the exception —
refuting the claim that a backend failure never causes the combine to raise. -/
theorem ensemble_backend_exception_aborts_combine :
    analyzeWithEnsemble [Backend.bert] defaultWeights (fun _ => .error "bert backend failed") =
      .error "bert backend failed" :=
  rfl

/-- C2 amended: if a loaded backend's scoring call raises during an ensemble
combine, the exception is logged and re-raised — the combine returns an
error to its caller instead of excluding the backend and degrading. -/
theorem ensemble_backend_exception_propagates
    (loaded : List Backend) (weights : Backend → ℚ)
    (score : (b : Backend) → Except String (ModelResult b))
    (b : Backend) (e : String) (hb : b ∈ loaded) (he : score b = .error e) :
    ∃ msg, analyzeWithEnsemble loaded weights score = .error msg := by
  have hmem : b ∈ backendOrder.filter (fun x => x ∈ loaded) := by
    rw [List.mem_filter]
    exact ⟨mem_backendOrder b, by simpa using hb⟩
  rcases gatherResults_error score _ b hmem ⟨e, he⟩ with ⟨msg, hmsg⟩
  exact ⟨msg, by unfold analyzeWithEnsemble; rw [hmsg]⟩

/-- C2 amended, witness at a concrete input. -/
theorem ensemble_backend_exception_propagates_witness :
    ∃ msg, analyzeWithEnsemble [Backend.vader] defaultWeights
      (fun _ => .error "vader backend failed") = .error msg :=
  ensemble_backend_exception_propagates [Backend.vader] defaultWeights
    (fun _ => .error "vader backend failed") Backend.vader "vader backend failed"
    (List.mem_cons_self _ _) rfl

/-- C9: a polarity backend participating with weight `w` contributes
`polarity * w` to the positive bucket when positive, `|polarity| * w` to the
negative bucket when negative, and exactly `w` to the neutral bucket when
zero — nothing elsewhere, and no further normalization of this conversion. -/
theorem textblob_polarity_conversion (pol subj w : ℚ) :
    (0 < pol → modelContribution .textblob (pol, subj) w = (pol * w, 0, 0))
    ∧ (pol < 0 → modelContribution .textblob (pol, subj) w = (0, |pol| * w, 0))
    ∧ (pol = 0 → modelContribution .textblob (pol, subj) w = (0, 0, w)) := by
  refine ⟨fun h => ?_, fun h => ?_, fun h => ?_⟩
  · simp [modelContribution, h]
  · simp [modelContribution, h, lt_asymm h]
  · simp [modelContribution, h]

/-- C9, witness at a concrete input. -/
theorem textblob_polarity_conversion_witness :
    modelContribution .textblob ((1 : ℚ)/2, 1) 2 = (1, 0, 0) := by
  have h := (textblob_polarity_conversion (1/2) 1 2).1 (by norm_num)
  rw [h]
  norm_num

/-- C3: with a non-empty set of available backends whose configured weights
have a positive sum, the weight applied per backend is the configured weight
divided by the sum over exactly the available backends; these applied
weights sum to 1, the combined scores depend only on the available
backends' weights (unavailable backends contribute zero), and the emotion
ensemble renormalizes the same way. -/
theorem ensemble_weights_renormalized
    (loaded : List Backend) (weights : Backend → ℚ)
    (score : (b : Backend) → Except String (ModelResult b))
    (results : List (Sigma ModelResult))
    (hres : gatherResults (backendOrder.filter (fun b => b ∈ loaded)) score = .ok results)
    (hne : results ≠ [])
    (hpos : 0 < totalWeight weights (availableModels results)) :
    (∀ b ∈ availableModels results,
        normalizedWeight weights (availableModels results) b =
          weights b / ((availableModels results).map weights).sum)
    ∧ ((availableModels results).map (normalizedWeight weights (availableModels results))).sum = 1
    ∧ (∀ weights2 : Backend → ℚ, (∀ b ∈ availableModels results, weights2 b = weights b) →
        combineScores weights2 results = combineScores weights results)
    ∧ (∀ (eloaded : List EmotionBackend) (eweights : EmotionBackend → ℚ),
        0 < emotionTotalWeight eweights (emotionBackendOrder.filter (fun b => b ∈ eloaded)) →
        ((emotionBackendOrder.filter (fun b => b ∈ eloaded)).map
            (emotionNormalizedWeight eweights
              (emotionBackendOrder.filter (fun b => b ∈ eloaded)))).sum = 1) := by
  refine ⟨fun b _ => rfl, ?_, ?_, ?_⟩
  · have hmap : (availableModels results).map (normalizedWeight weights (availableModels results)) =
        ((availableModels results).map weights).map
          (fun x => x / totalWeight weights (availableModels results)) := by
      rw [List.map_map]
      rfl
    rw [hmap, sum_map_div]
    exact div_self (ne_of_gt hpos)
  · intro weights2 h
    exact combineScores_eq_of_eq_on weights weights2 results h
  · intro eloaded eweights hepos
    have hmap : (emotionBackendOrder.filter (fun b => b ∈ eloaded)).map
          (emotionNormalizedWeight eweights (emotionBackendOrder.filter (fun b => b ∈ eloaded))) =
        ((emotionBackendOrder.filter (fun b => b ∈ eloaded)).map eweights).map
          (fun x => x / emotionTotalWeight eweights
            (emotionBackendOrder.filter (fun b => b ∈ eloaded))) := by
      rw [List.map_map]
      rfl
    rw [hmap, sum_map_div]
    exact div_self (ne_of_gt hepos)

/-- C3, witness at a concrete input. -/
theorem ensemble_weights_renormalized_witness :
    ((availableModels probeResults).map
      (normalizedWeight defaultWeights (availableModels probeResults))).sum = 1 :=
  (ensemble_weights_renormalized [Backend.bert, Backend.vader] defaultWeights probeScore
    probeResults rfl
    (by simp [probeResults])
    (by norm_num [totalWeight, availableModels, probeResults, defaultWeights])).2.1

/-- C4: the ensemble label is positive iff the positive score is strictly
greater than both others, negative iff the negative score is strictly
greater than both others, and neutral otherwise (ties and all-zero
included); the confidence always equals the winning bucket's score (for
neutral, the neutral score itself), and every result the ensemble produces
obeys this rule. -/
theorem ensemble_label_confidence_rule (p n u : ℚ) :
    ((determineSentiment p n u).1 = .positive ↔ (p > n ∧ p > u))
    ∧ ((determineSentiment p n u).1 = .negative ↔ (n > p ∧ n > u))
    ∧ ((determineSentiment p n u).1 = .neutral ↔ (¬(p > n ∧ p > u) ∧ ¬(n > p ∧ n > u)))
    ∧ ((determineSentiment p n u).1 = .positive → (determineSentiment p n u).2 = p)
    ∧ ((determineSentiment p n u).1 = .negative → (determineSentiment p n u).2 = n)
    ∧ ((determineSentiment p n u).1 = .neutral → (determineSentiment p n u).2 = u)
    ∧ (∀ (loaded : List Backend) (weights : Backend → ℚ)
        (score : (b : Backend) → Except String (ModelResult b)) (r : EnsembleResult),
        analyzeWithEnsemble loaded weights score = .ok r →
        (r.sentiment, r.confidence) = determineSentiment r.positive r.negative r.neutral) := by
  unfold determineSentiment
  refine ⟨?_, ?_, ?_, ?_, ?_, ?_, ?_⟩
  · split_ifs with h1 h2
    · exact iff_of_true rfl h1
    · exact iff_of_false (by simp) h1
    · exact iff_of_false (by simp) h1
  · split_ifs with h1 h2
    · exact iff_of_false (by simp) (fun h => lt_asymm h1.1 h.1)
    · exact iff_of_true rfl h2
    · exact iff_of_false (by simp) h2
  · split_ifs with h1 h2
    · exact iff_of_false (by simp) (fun h => h.1 h1)
    · exact iff_of_false (by simp) (fun h => h.2 h2)
    · exact iff_of_true rfl ⟨h1, h2⟩
  · split_ifs with h1 h2 <;> intro hs
    · rfl
    · exact absurd hs (by simp)
    · exact absurd hs (by simp)
  · split_ifs with h1 h2 <;> intro hs
    · exact absurd hs (by simp)
    · rfl
    · exact absurd hs (by simp)
  · split_ifs with h1 h2 <;> intro hs
    · exact absurd hs (by simp)
    · exact absurd hs (by simp)
    · rfl
  · intro loaded weights score r hr
    unfold analyzeWithEnsemble at hr
    cases hg : gatherResults (backendOrder.filter (fun b => b ∈ loaded)) score with
    | error e => rw [hg] at hr; exact absurd hr (by simp)
    | ok results =>
      rw [hg] at hr
      dsimp only at hr
      by_cases hc : availableModels results ≠ [] ∧ totalWeight weights (availableModels results) = 0
      · rw [if_pos hc] at hr
        exact absurd hr (by simp)
      · rw [if_neg hc] at hr
        have h2 := Except.ok.inj hr
        subst h2
        rfl

/-- C4, witness at a concrete input. -/
theorem ensemble_label_confidence_rule_witness :
    (determineSentiment 1 0 0).1 = .positive :=
  (ensemble_label_confidence_rule 1 0 0).1.mpr (by norm_num)

/-- C10: the emotion detector's public `detect` never propagates an
exception — if an error escapes the model dispatch, it returns the score
`0.0` for every one of the six emotions instead of raising. -/
theorem detect_absorbs_dispatch_errors (modelType : String) (tl : Bool)
    (tD rD eD : Except String (Emotion → ℚ)) (msg : String)
    (h : detectDispatch modelType tl tD rD eD = .error msg) :
    ∀ e : Emotion, detect modelType tl tD rD eD e = 0 := by
  intro e
  unfold detect
  rw [h]

/-- C10, witness at a concrete input. -/
theorem detect_absorbs_dispatch_errors_witness :
    detect "all" true (.ok fun _ => 1) (.ok fun _ => 2) (.error "transformer crashed")
      Emotion.joy = 0 :=
  detect_absorbs_dispatch_errors "all" true _ _ _ "transformer crashed" rfl Emotion.joy

/-- C5 counterexample: starting a stream with the unknown source `"foo"`
raises, but the session record has already been inserted and remains in the
session table — refuting the claim that no session is created and the table
is unchanged. -/
theorem start_stream_unknown_source_inserts_session :
    (∃ msg, (start_stream initialManagerState "sid-1" "foo" "q" 60 none).2 = .error msg)
    ∧ dictGet (start_stream initialManagerState "sid-1" "foo" "q" 60 none).1.activeStreams
        "sid-1" = some (freshSession "foo" "q" 60) :=
  ⟨⟨String.append "Unknown source: " "foo", rfl⟩, rfl⟩

/-- C5 amended: an unknown source is rejected with a `ValueError`, but only
after the session record (status `"initializing"`) and its empty results
buffer have been inserted; the failed start leaves both in the tables. -/
theorem start_stream_unknown_source_rejected_after_insert
    (st : ManagerState) (sid source query : String) (d : Int) (af : Option String)
    (h : source ∉ knownSources) :
    (start_stream st sid source query d af).2 =
      .error (String.append "Unknown source: " source)
    ∧ dictGet (start_stream st sid source query d af).1.activeStreams sid =
        some (freshSession source query d)
    ∧ dictGet (start_stream st sid source query d af).1.streamResults sid = some [] := by
  refine ⟨?_, ?_, ?_⟩ <;> unfold start_stream
  · rw [if_neg h]
  · rw [if_neg h]
    exact dictGet_dictSet_self _ _ _
  · rw [if_neg h]
    exact dictGet_dictSet_self _ _ _

/-- C5 amended, witness at a concrete input. -/
theorem start_stream_unknown_source_rejected_after_insert_witness :
    dictGet (start_stream initialManagerState "sid-w5" "foo" "q" 0 none).1.activeStreams
      "sid-w5" = some (freshSession "foo" "q" 0) :=
  (start_stream_unknown_source_rejected_after_insert initialManagerState "sid-w5" "foo" "q" 0
    none (by decide)).2.1

/-- C6 counterexample: stopping a session whose status is the terminal
`"completed"` succeeds and overwrites the status with `"stopped"` —
refuting the claim that terminal statuses are never rewritten and stopping
a terminal session leaves it unchanged. -/
theorem stop_stream_overwrites_terminal_status :
    (stop_stream terminalSessionState "sid-2").2 = .ok ()
    ∧ dictGet (stop_stream terminalSessionState "sid-2").1.activeStreams "sid-2" =
        some (withStatus "stopped" (freshSession "custom" "q" 0)) :=
  ⟨rfl, rfl⟩

/-- C6 amended: status writes are not guarded by the current status —
`stop_stream` sets `"stopped"` on any existing session whatever its status
(terminal included), and a finishing adapter task likewise writes
`"completed"` (or `"error"`) unconditionally, so transitions are not
monotonic. -/
theorem stream_status_writes_unconditional
    (st : ManagerState) (sid : String) (s : StreamSession)
    (h : dictGet st.activeStreams sid = some s) :
    (stop_stream st sid).2 = .ok ()
    ∧ dictGet (stop_stream st sid).1.activeStreams sid = some (withStatus "stopped" s)
    ∧ dictGet (runStreamFinish st sid none).activeStreams sid = some (withStatus "completed" s)
    ∧ ∀ msg, dictGet (runStreamFinish st sid (some msg)).activeStreams sid =
        some (withError msg s) := by
  refine ⟨?_, ?_, ?_, fun msg => ?_⟩
  · unfold stop_stream
    rw [h]
  · unfold stop_stream
    rw [h]
    dsimp only
    rw [dictGet_dictUpdate_self, h]
    rfl
  · unfold runStreamFinish
    dsimp only
    rw [dictGet_dictUpdate_self, h]
    rfl
  · unfold runStreamFinish
    dsimp only
    rw [dictGet_dictUpdate_self, h]
    rfl

/-- C6 amended, witness at a concrete input. -/
theorem stream_status_writes_unconditional_witness :
    dictGet (stop_stream terminalSessionState "sid-2").1.activeStreams "sid-2" =
      some (withStatus "stopped" (withStatus "completed" (freshSession "custom" "q" 0))) :=
  (stream_status_writes_unconditional terminalSessionState "sid-2" _ rfl).2.1

/-- C7: one `process_stream` pass scores exactly the unprocessed buffer
items — items with `processed=true` are untouched, items with
`processed=false` get `processed=true` plus the stored results — and a
second pass on the same buffer changes nothing, so no item is ever scored
twice. -/
theorem process_stream_idempotent (st : ManagerState) (sid : String)
    (tp : String → String) (an : String → EnsembleResult) :
    process_stream (process_stream st sid tp an) sid tp an = process_stream st sid tp an
    ∧ (∀ item : StreamItem, item.processed = true → processItem tp an item = item)
    ∧ (∀ item : StreamItem, item.processed = false →
        processItem tp an item =
          { item with
            processed := true
            processedText := some (tp item.text)
            sentiment := some (an (tp item.text)) }) := by
  refine ⟨?_, fun item h => by simp [processItem, h], fun item h => by simp [processItem, h]⟩
  cases hg : dictGet st.activeStreams sid with
  | none =>
    have h1 : process_stream st sid tp an = st := by
      unfold process_stream
      rw [hg]
    rw [h1]
    exact h1
  | some s =>
    have h1 : process_stream st sid tp an =
        { st with streamResults :=
            dictUpdate st.streamResults sid (List.map (processItem tp an)) } := by
      unfold process_stream
      rw [hg]
    rw [h1]
    unfold process_stream
    dsimp only
    rw [hg]
    dsimp only
    rw [dictUpdate_dictUpdate]
    have hf : (fun x => List.map (processItem tp an) (List.map (processItem tp an) x)) =
        List.map (processItem tp an) := funext (map_processItem_idem tp an)
    rw [hf]

/-- C7, witness at a concrete input. -/
theorem process_stream_idempotent_witness :
    processItem id (fun _ => neutralResult)
      { text := "t", processed := true, processedText := none, sentiment := none } =
      { text := "t", processed := true, processedText := none, sentiment := none } :=
  (process_stream_idempotent initialManagerState "s" id (fun _ => neutralResult)).2.1
    { text := "t", processed := true, processedText := none, sentiment := none } rfl

/-- C8 counterexample: registering a callback for a session id that is not
in the session table is accepted — no error is raised and the callback
table is modified — refuting the claim that every manager operation taking
a session id rejects unknown ids and leaves state unchanged. -/
theorem register_callback_unknown_session_accepted :
    dictGet initialManagerState.activeStreams "ghost" = none
    ∧ register_callback initialManagerState "ghost" 7 =
        { initialManagerState with streamCallbacks := [("ghost", [7])] } :=
  ⟨rfl, rfl⟩

/-- C8 amended: for an unknown session id, `get_stream_status`,
`get_stream_results` and `stop_stream` raise a not-found `ValueError` and
leave the state unchanged; `process_stream` detects the unknown id but its
catch-all swallows the error, so it returns normally with the state
unchanged; `register_callback` performs no check and records the callback
under the unknown id. -/
theorem unknown_session_id_handling
    (st : ManagerState) (sid : String) (tp : String → String)
    (an : String → EnsembleResult) (cb : Nat) (limit : Nat) (po : Bool)
    (h1 : dictGet st.activeStreams sid = none)
    (h2 : dictGet st.streamResults sid = none) :
    get_stream_status st sid = .error (String.append "Stream not found: " sid)
    ∧ get_stream_results st sid limit po = .error (String.append "Stream not found: " sid)
    ∧ stop_stream st sid = (st, .error (String.append "Stream not found: " sid))
    ∧ process_stream st sid tp an = st
    ∧ dictGet (register_callback st sid cb).streamCallbacks sid =
        some ((dictGet st.streamCallbacks sid).getD [] ++ [cb]) := by
  refine ⟨?_, ?_, ?_, ?_, ?_⟩
  · unfold get_stream_status
    rw [h1]
  · unfold get_stream_results
    rw [h2]
  · unfold stop_stream
    rw [h1]
  · unfold process_stream
    rw [h1]
  · unfold register_callback
    cases hcb : dictGet st.streamCallbacks sid with
    | none =>
      dsimp only
      rw [dictGet_dictSet_self]
      simp
    | some l =>
      dsimp only
      rw [dictGet_dictSet_self]
      simp

/-- C8 amended, witness at a concrete input. -/
theorem unknown_session_id_handling_witness :
    process_stream initialManagerState "ghost2" id (fun _ => neutralResult) =
      initialManagerState :=
  (unknown_session_id_handling initialManagerState "ghost2" id (fun _ => neutralResult)
    0 100 false rfl rfl).2.2.2.1

end SentimentSystem
